import Mathlib

/-!
Verification of the logrus-stackdriver-formatter repository.

This file gives a shallow embedding of the log-record transformation engine
(src/formatter.go), the stack-origin resolver (errorOrigin), the formatter
configuration and options (src/options.go, src/formatter.go NewFormatter),
and the HTTP middleware (src/middleware.go, src/middleware_options.go), and
proves properties of the embedded definitions.

Modelling conventions:
  * Go maps with string keys are association lists with first-match lookup
    and delete-all erasure (Go map keys are unique, so the two agree).
  * Dynamic (interface) values are the inductive `Value`; each constructor
    is one of the runtime types the formatter type-switches on.
  * The ambient call stack consumed by `errorOrigin` (go-stack Caller) is an
    explicit `List Frame` argument; walking past the end of the list models
    go-stack returning ErrNoFunc from MarshalText for the sentinel Call.
  * Times are carried pre-rendered: `LogrusEntry.time = none` models a zero
    time.Time; `some t` carries the already formatted UTC RFC3339Nano text,
    and the resolution-time fallback is the explicit `now` argument.
  * The compiled RegexSkip matcher is an abstract `Option (String → Bool)`
    (`none` models an empty RegexSkip string).
  * A Go runtime panic inside ToEntry is an `Except.error`.
-/

namespace Logadapter

/-- Internal logrus levels (logrus.Level). -/
inductive Level where
  | trace
  | debug
  | info
  | warn
  | error
  | fatal
  | panicL
  deriving DecidableEq, Repr, Inhabited

/-- The levelsToSeverity map of src/formatter.go. A Go map lookup on a key
that is absent (logrus.TraceLevel has no entry) yields the zero value,
the empty severity string. -/
def levelsToSeverity : Level → String
  | .debug => "DEBUG"
  | .info => "INFO"
  | .warn => "WARNING"
  | .error => "ERROR"
  | .fatal => "CRITICAL"
  | .panicL => "ALERT"
  | .trace => ""

/-- The distinguished ReportedErrorEvent type tag (src/formatter.go). -/
def reportedErrorEventType : String :=
  "type.googleapis.com/google.devtools.clouderrorreporting.v1beta1.ReportedErrorEvent"

/-- ServiceContext (src/formatter.go). -/
structure ServiceContext where
  service : String := ""
  version : String := ""
  deriving DecidableEq, Repr, Inhabited

/-- SourceLocation (src/formatter.go). -/
structure SourceLocation where
  filePath : String := ""
  lineNumber : Nat := 0
  functionName : String := ""
  deriving DecidableEq, Repr, Inhabited

/-- ReportLocation (src/formatter.go). -/
structure ReportLocation where
  filePath : String := ""
  lineNumber : Nat := 0
  functionName : String := ""
  deriving DecidableEq, Repr, Inhabited

/-- HTTPRequest wire sub-object (src/formatter.go). -/
structure HTTPRequest where
  requestMethod : String := ""
  requestURL : String := ""
  requestSize : String := ""
  status : String := ""
  responseSize : String := ""
  userAgent : String := ""
  remoteIP : String := ""
  serverIP : String := ""
  referer : String := ""
  latency : String := ""
  cacheLookup : Bool := false
  cacheHit : Bool := false
  cacheValidatedWithOriginServer : Bool := false
  cacheFillBytes : String := ""
  protocol : String := ""
  deriving DecidableEq, Repr, Inhabited

/-- GRPCRequest wire sub-object (src/middleware.go). -/
structure GRPCRequest where
  method : String := ""
  userAgent : String := ""
  peerAddr : String := ""
  deadline : String := ""
  duration : String := ""
  deriving DecidableEq, Repr, Inhabited

/-- SourceReference (src/formatter.go). -/
structure SourceReference where
  repository : String := ""
  revisionId : String := ""
  deriving DecidableEq, Repr, Inhabited

/-- An OpenTelemetry trace.SpanContext as consumed by ToEntry: the 16 trace
id bytes, the 8 span id bytes and the sampled flag. -/
structure SpanContext where
  traceIDBytes : List Nat := []
  spanIDBytes : List Nat := []
  sampled : Bool := false
  deriving DecidableEq, Repr, Inhabited

/-- trace.SpanContext.IsValid: the trace id and the span id are both
non-zero. -/
def SpanContext.isValid (c : SpanContext) : Bool :=
  c.traceIDBytes.any (fun b => b ≠ 0) && c.spanIDBytes.any (fun b => b ≠ 0)

/-- One frame of a pkg/errors stack trace attached to an error value, as
resolved by runtime.FuncForPC in extractStackFromError; `entryHex` carries
the %#x rendering of fn.Entry(). -/
structure ErrFrame where
  funcName : String := ""
  file : String := ""
  line : Nat := 0
  entryHex : String := ""
  deriving DecidableEq, Repr, Inhabited

/-- A dynamic (interface) field value. Each constructor is one of the
runtime types the formatter type-switches on; `other` covers every
remaining type, carrying its fmt rendering. An error value carries its
Error() message and, when errors.As finds a pkg/errors stackTracer in its
chain, the attached frames (`none` per frame models runtime.FuncForPC
returning nil). -/
inductive Value where
  | str (s : String)
  | goError (msg : String) (stk : Option (List (Option ErrFrame)))
  | spanCtx (c : SpanContext)
  | httpReq (r : HTTPRequest)
  | reqDetails (r : HTTPRequest)
  | grpcReq (r : GRPCRequest)
  | rawJSON (s : String)
  | mapVal (m : List (String × Value))
  | stringer (s : String)
  | other (rendering : String)

instance : Inhabited Value := ⟨.str ""⟩

/-- Go map lookup (first match in the association list). -/
def mapFind? : List (String × Value) → String → Option Value
  | [], _ => none
  | (k, v) :: rest, key => if k = key then some v else mapFind? rest key

/-- Go map delete. -/
def mapErase (m : List (String × Value)) (k : String) : List (String × Value) :=
  m.filter (fun p => !(p.1 == k))

/-- Go fmt "%v" rendering of a dynamic value. String-like values render as
their contents and error values as their message (fmt calls Error(); the
pkg/errors %v verb prints only the message). Renderings of the structured
constructors are abstracted to a fixed token; no theorem depends on them. -/
def renderV : Value → String
  | .str s => s
  | .goError msg _ => msg
  | .stringer s => s
  | .rawJSON s => s
  | .other r => r
  | .spanCtx _ => "(span context)"
  | .httpReq _ => "(http request)"
  | .reqDetails _ => "(request details)"
  | .grpcReq _ => "(grpc request)"
  | .mapVal _ => "(map)"

/-- Go fmt "%+v" rendering, used on the raw stackTrace field. It coincides
with %v on the value shapes the formatter stores there (strings, since
replaceErrors already stringified error values). -/
def renderPlusV (v : Value) : String := renderV v

/-- A frame of the ambient call stack as seen through go-stack: `pkg` is the
%+k rendering (full package path of the frame function), `file` the %+s
rendering, `line` the %d rendering and `function` the %n rendering;
`fullFunction` is runtime Frame.Function, matched by RegexSkip. -/
structure Frame where
  pkg : String := ""
  file : String := ""
  line : Nat := 0
  function : String := ""
  fullFunction : String := ""
  deriving DecidableEq, Repr, Inhabited

/-- Stack-trace placement policy (src/options.go). -/
inductive StackTraceStyle where
  | traceInMessage
  | traceInPayload
  | traceInBoth
  deriving DecidableEq, Repr, Inhabited

/-- Formatter configuration (src/formatter.go). `regexSkip = none` models an
empty RegexSkip string; `some m` the compiled regexp matcher. -/
structure Formatter where
  service : String := ""
  version : String := ""
  sourceReference : List SourceReference := []
  projectID : String := ""
  stackSkip : List String := []
  stackStyle : StackTraceStyle := .traceInMessage
  skipTimestamp : Bool := false
  regexSkip : Option (String → Bool) := none
  prettyPrint : Bool := false
  globalTraceID : String := ""

/-- Caller frame recorded by logrus when SetReportCaller is configured. -/
structure Caller where
  file : String := ""
  line : Nat := 0
  function : String := ""
  deriving DecidableEq, Repr, Inhabited

/-- A logrus.Entry as consumed by ToEntry. `time = none` models a zero
time.Time, `some t` carries the pre-rendered UTC RFC3339Nano text. -/
structure LogrusEntry where
  level : Level := .info
  message : String := ""
  time : Option String := none
  data : List (String × Value) := []
  caller : Option Caller := none

/-- Context wire sub-object (src/formatter.go). -/
structure Context where
  data : List (String × Value) := []
  user : String := ""
  reportLocation : Option ReportLocation := none
  httpRequest : Option HTTPRequest := none
  pubSubRequest : Option (List (String × Value)) := none
  grpcRequest : Option GRPCRequest := none
  grpcStatus : Option String := none
  sourceReferences : List SourceReference := []

instance : Inhabited Context := ⟨{}⟩

/-- Entry, the assembled wire record (src/formatter.go). -/
structure Entry where
  type : String := ""
  logName : String := ""
  timestamp : String := ""
  serviceContext : Option ServiceContext := none
  message : String := ""
  severity : String := ""
  context : Context := {}
  sourceLocation : Option SourceLocation := none
  stackTrace : String := ""
  trace : String := ""
  spanID : String := ""
  traceSampled : Bool := false
  httpRequest : Option HTTPRequest := none

instance : Inhabited Entry := ⟨{}⟩

/-- Bytewise prefix test on character lists (strings.HasPrefix). -/
def isPre : List Char → List Char → Bool
  | [], _ => true
  | _ :: _, [] => false
  | a :: as, b :: bs => a == b && isPre as bs

/-- Substring containment on character lists (strings.Contains): the
pattern occurs as a prefix at some position. -/
def containsSub : List Char → List Char → Bool
  | [], pat => isPre pat []
  | c :: rest, pat => isPre pat (c :: rest) || containsSub rest pat

/-- strings.Contains on strings. -/
def strContains (s pat : String) : Bool := containsSub s.data pat.data

/-- strings.HasPrefix on strings. -/
def strHasPre (s pre : String) : Bool := isPre pre.data s.data

/-- Suffix of `l` after the first occurrence of `marker`, if any: the last
element of strings.SplitN(l, marker, 2). -/
def afterMarker (marker : List Char) : List Char → Option (List Char)
  | [] => if isPre marker [] then some [] else none
  | c :: rest =>
    if isPre marker (c :: rest) then some ((c :: rest).drop marker.length)
    else afterMarker marker rest

/-- Vendoring removal in errorOrigin: parts := strings.SplitN(pkg,
"/vendor/", 2); pkg = parts[len(parts)-1]. -/
def stripVendor (pkg : String) : String :=
  match afterMarker "/vendor/".data pkg.data with
  | some suffix => String.mk suffix
  | none => pkg

/-- The skip closure of errorOrigin: some configured StackSkip entry occurs
as a substring of the (vendor-stripped) package path. -/
def skipPkg (skipList : List String) (pkg : String) : Bool :=
  skipList.any (fun s => strContains pkg s)

/-- RegexSkip acceptance: r == nil || !r.MatchString(function). -/
def passesRegex (r : Option (String → Bool)) (fn : String) : Bool :=
  match r with
  | none => true
  | some m => !(m fn)

/-- errorOrigin (src/formatter.go): walk the ambient call stack and return
the first frame whose vendor-stripped package path contains no StackSkip
entry and whose function does not match RegexSkip; `none` models the
stack.Call sentinel returned when the stack is exhausted. -/
def errorOrigin (f : Formatter) : List Frame → Option Frame
  | [] => none
  | c :: rest =>
    if !skipPkg f.stackSkip (stripVendor c.pkg) && passesRegex f.regexSkip c.fullFunction then
      some c
    else errorOrigin f rest

/-- replaceErrors (src/formatter.go): copy the field map, turning every
error-typed value into its Error() string. -/
def replaceErrors (source : List (String × Value)) : List (String × Value) :=
  source.map (fun p =>
    match p.2 with
    | .goError msg _ => (p.1, .str msg)
    | v => (p.1, v))

/-- Two lowercase hex digits of a byte. -/
def hexDigit (n : Nat) : Char :=
  if n < 10 then Char.ofNat (48 + n) else Char.ofNat (87 + n)

/-- Lowercase hex rendering of one byte. -/
def hexByte (b : Nat) : String := String.mk [hexDigit (b / 16 % 16), hexDigit (b % 16)]

/-- Lowercase hex rendering of a byte sequence: TraceID.String and
SpanID.String of the OpenTelemetry trace package. -/
def hexBytes (bs : List Nat) : String := String.join (bs.map hexByte)

/-- extractStackFromError (repository helper, cited by src/formatter.go):
`none` when the error does not carry a pkg/errors stack; otherwise the
rendered trace — the error message, a synthetic goroutine banner, and one
line per resolvable frame. -/
def extractStackFromError (msg : String) : Option (List (Option ErrFrame)) → Option String
  | none => none
  | some frames =>
    some (msg ++ "\ngoroutine 1 [running]:\n" ++
      String.intercalate "\n" ((frames.filterMap id).map (fun fr =>
        fr.funcName ++ "()\n\t" ++ fr.file ++ ":" ++ toString fr.line ++ " +" ++ fr.entryHex)))

/-- File rendering of the go-stack sentinel Call under %+s. -/
def noFuncFile : String := "%!s(NOFUNC)"

/-- Function rendering of the go-stack sentinel Call under %n. -/
def noFuncFunction : String := "%!n(NOFUNC)"

/-- Opening section of ToEntry: severity, the residual context map with
errors stringified, the span-context correlation with removal of the
span_context field, and the global fallback trace id when no valid span
context set a trace. -/
def initEntry (f : Formatter) (e : LogrusEntry) : Entry :=
  let ee : Entry := { severity := levelsToSeverity e.level,
                      context := { data := replaceErrors e.data } }
  let ee :=
    match mapFind? e.data "span_context" with
    | some v =>
      let ee :=
        match v with
        | .spanCtx sc =>
          if sc.isValid then
            { ee with
                trace := "projects/" ++ f.projectID ++ "/traces/" ++ hexBytes sc.traceIDBytes,
                spanID := hexBytes sc.spanIDBytes,
                traceSampled := sc.sampled }
          else ee
        | _ => ee
      { ee with context := { ee.context with data := mapErase ee.context.data "span_context" } }
    | none => ee
  if ee.trace = "" then
    { ee with trace := "projects/" ++ f.projectID ++ "/traces/" ++ f.globalTraceID }
  else ee

/-- Message-parts initialisation: the record message when non-empty. -/
def setMessageParts (e : LogrusEntry) : List String :=
  if 0 < e.message.length then [e.message] else []

/-- Timestamp step: unless suppression is configured, the record time when
non-zero, else the resolution time `now`. -/
def setTimestamp (f : Formatter) (e : LogrusEntry) (now : String) (ee : Entry) : Entry :=
  if !f.skipTimestamp then
    match e.time with
    | some t => { ee with timestamp := t }
    | none => { ee with timestamp := now }
  else ee

/-- Source-location step: a logrus-supplied caller is used as-is; otherwise
the stack-origin resolver runs over the ambient call stack, and its
sentinel result is formatted like the zero stack.Call (the %+s, %d and %n
verbs render NOFUNC errors and ParseInt of the %d rendering fails to 0). -/
def setSourceLocation (f : Formatter) (e : LogrusEntry) (callStack : List Frame) (ee : Entry) : Entry :=
  match e.caller with
  | some c =>
    { ee with sourceLocation := some { filePath := c.file, lineNumber := c.line, functionName := c.function } }
  | none =>
    match errorOrigin f callStack with
    | some fr =>
      { ee with sourceLocation := some { filePath := fr.file, lineNumber := fr.line, functionName := fr.function } }
    | none =>
      { ee with sourceLocation := some { filePath := noFuncFile, lineNumber := 0, functionName := noFuncFunction } }

/-- Reading ee.ServiceContext.Service as the type-tag gate does. Within the
error branch the ServiceContext pointer was just assigned, so the `none`
case is unreachable (in Go it would be a nil dereference). -/
def serviceContextService (ee : Entry) : String :=
  match ee.serviceContext with
  | some sc => sc.service
  | none => ""

/-- Error-branch prologue: attach the service/version descriptor, any
configured source references, and copy the source location into the
report-location slot. -/
def attachServiceContext (f : Formatter) (ee : Entry) : Entry :=
  let ee := { ee with serviceContext := some { service := f.service, version := f.version } }
  let ee :=
    if f.sourceReference ≠ [] then
      { ee with context := { ee.context with sourceReferences := f.sourceReference } }
    else ee
  match ee.sourceLocation with
  | some sl =>
    { ee with context := { ee.context with
        reportLocation := some { filePath := sl.filePath, lineNumber := sl.lineNumber, functionName := sl.functionName } } }
  | none => ee

/-- Stack-trace update for an error-typed WithError value: only under a
payload placement policy, and only when the error carries a stack. -/
def errStackUpdate (f : Formatter) (message : List String) (v : Value) (ee : Entry) : Entry :=
  match v with
  | .goError msg frames =>
    if f.stackStyle = .traceInPayload ∨ f.stackStyle = .traceInBoth then
      match extractStackFromError msg frames with
      | some st => { ee with stackTrace := String.intercalate "\n" (message ++ [st]) }
      | none => ee
    else ee
  | _ => ee

/-- WithError handling in the error branch: the rendered error is appended
to the message parts in every case; the stack-trace field is additionally
populated by errStackUpdate. -/
def errKeyStep (f : Formatter) (e : LogrusEntry) (message : List String) (ee : Entry) :
    Entry × List String :=
  match mapFind? e.data "error" with
  | some v => (errStackUpdate f message v ee, message ++ [renderV v])
  | none => (ee, message)

/-- Raw stackTrace field handling in the error branch: appended to the
message parts and/or stored in the dedicated slot per the placement policy
(overwriting any stack trace taken from the error), and removed from the
residual map regardless of policy. -/
def stackTraceStep (f : Formatter) (message : List String) (ee : Entry) :
    Entry × List String :=
  match mapFind? ee.context.data "stackTrace" with
  | some st =>
    let stackL := message ++ [renderPlusV st]
    let message2 := if f.stackStyle = .traceInMessage ∨ f.stackStyle = .traceInBoth then stackL else message
    let ee2 :=
      if f.stackStyle = .traceInPayload ∨ f.stackStyle = .traceInBoth then
        { ee with stackTrace := String.intercalate "\n" stackL }
      else ee
    ({ ee2 with context := { ee2.context with data := mapErase ee2.context.data "stackTrace" } }, message2)
  | none => (ee, message)

/-- The body of the ERROR/CRITICAL/ALERT switch arm of ToEntry, ending with
the ReportedErrorEvent type-tag gate. -/
def errorBranch (f : Formatter) (e : LogrusEntry) (message : List String) (ee : Entry) :
    Entry × List String :=
  let ee := attachServiceContext f ee
  let p := errKeyStep f e message ee
  let q := stackTraceStep f p.2 p.1
  let ee := q.1
  let message := q.2
  let ee :=
    if 0 < message.length ∧ serviceContextService ee ≠ "" ∧
        (ee.stackTrace ≠ "" ∨ ee.sourceLocation.isSome) then
      { ee with type := reportedErrorEventType }
    else ee
  (ee, message)

/-- The severity switch of ToEntry. -/
def severityBlock (f : Formatter) (e : LogrusEntry) (sev : String) (message : List String)
    (ee : Entry) : Entry × List String :=
  if sev = "ERROR" ∨ sev = "CRITICAL" ∨ sev = "ALERT" then errorBranch f e message ee
  else (ee, message)

/-- User-identity promotion: a string or a fmt.Stringer value is promoted to
the dedicated slot and removed from the residual map (the two Go type
checks are disjoint, since a plain string does not implement
fmt.Stringer). -/
def promoteUser (ee : Entry) : Entry :=
  match mapFind? ee.context.data "user" with
  | some (.str u) =>
    { ee with context := { ee.context with user := u, data := mapErase ee.context.data "user" } }
  | some (.stringer u) =>
    { ee with context := { ee.context with user := u, data := mapErase ee.context.data "user" } }
  | _ => ee

/-- httpRequest promotion of a *HTTPRequest value into the context slot. -/
def promoteHTTPReq (ee : Entry) : Entry :=
  match mapFind? ee.context.data "httpRequest" with
  | some (.httpReq r) =>
    { ee with context := { ee.context with
        httpRequest := some r,
        data := mapErase ee.context.data "httpRequest" } }
  | _ => ee

/-- httpRequest promotion of a middleware requestDetails value into the
top-level entry slot. -/
def promoteHTTPDetails (ee : Entry) : Entry :=
  match mapFind? ee.context.data "httpRequest" with
  | some (.reqDetails r) =>
    { ee with
        httpRequest := some r,
        context := { ee.context with data := mapErase ee.context.data "httpRequest" } }
  | _ => ee

/-- grpcRequest promotion. -/
def promoteGRPCReq (ee : Entry) : Entry :=
  match mapFind? ee.context.data "grpcRequest" with
  | some (.grpcReq r) =>
    { ee with context := { ee.context with
        grpcRequest := some r,
        data := mapErase ee.context.data "grpcRequest" } }
  | _ => ee

/-- grpcStatus promotion of a json.RawMessage value. -/
def promoteGRPCStatus (ee : Entry) : Entry :=
  match mapFind? ee.context.data "grpcStatus" with
  | some (.rawJSON r) =>
    { ee with context := { ee.context with
        grpcStatus := some r,
        data := mapErase ee.context.data "grpcStatus" } }
  | _ => ee

/-- pubSubRequest promotion. The source deletes the key "pubsubRequest"
(lowercase s) although the value was read under "pubSubRequest"; the
mismatch is reproduced verbatim here. -/
def promotePubSub (ee : Entry) : Entry :=
  match mapFind? ee.context.data "pubSubRequest" with
  | some (.mapVal m) =>
    { ee with context := { ee.context with
        pubSubRequest := some m,
        data := mapErase ee.context.data "pubsubRequest" } }
  | _ => ee

/-- ToEntry after the logName computation: message parts, timestamp, source
location, the severity switch, the promotions, and the final message
join. -/
def toEntryCore (f : Formatter) (e : LogrusEntry) (callStack : List Frame) (now : String)
    (ee : Entry) : Entry :=
  let message := setMessageParts e
  let ee := setTimestamp f e now ee
  let ee := setSourceLocation f e callStack ee
  let p := severityBlock f e (levelsToSeverity e.level) message ee
  let ee := promoteUser p.1
  let ee := promoteHTTPReq ee
  let ee := promoteHTTPDetails ee
  let ee := promoteGRPCReq ee
  let ee := promoteGRPCStatus ee
  let ee := promotePubSub ee
  { ee with message := String.intercalate "\n" p.2 }

/-- ToEntry (src/formatter.go). The returned error slot is always nil in
the source; an `Except.error` result models the Go runtime panic raised by
the unchecked type assertion val.(string) on a non-string logID field. -/
def ToEntry (f : Formatter) (e : LogrusEntry) (callStack : List Frame) (now : String) :
    Except String (Entry × Option String) :=
  let ee := initEntry f e
  match mapFind? e.data "logID" with
  | some v =>
    match v with
    | .str s =>
      .ok (toEntryCore f e callStack now
        { ee with logName := "projects/" ++ f.projectID ++ "/logs/" ++ f.service ++ "%2F" ++ s }, none)
    | _ => .error "interface conversion: logID value is not a string"
  | none =>
    .ok (toEntryCore f e callStack now
      { ee with logName := "projects/" ++ f.projectID ++ "/logs/" ++ f.service }, none)

/-- Format (src/formatter.go): marshal the assembled entry (the marshaller
is the json package, passed here as an explicit function) and append a
newline; a marshalling failure is returned as the error, with only the
newline in the buffer. -/
def Format (f : Formatter) (e : LogrusEntry) (callStack : List Frame) (now : String)
    (marshal : Entry → Except String String) : Except String (String × Option String) :=
  match ToEntry f e callStack now with
  | .error p => .error p
  | .ok (ee, _) =>
    match marshal ee with
    | .ok b => .ok (b ++ "\n", none)
    | .error er => .ok ("\n", some er)

/-- A formatter construction option (src/options.go). -/
def FmtOption : Type := Formatter → Formatter

/-- WithService (src/options.go). -/
def WithService (n : String) : FmtOption := fun f => { f with service := n }

/-- WithVersion (src/options.go). -/
def WithVersion (v : String) : FmtOption := fun f => { f with version := v }

/-- WithSourceReference (src/options.go). -/
def WithSourceReference (repository revision : String) : FmtOption :=
  fun f => { f with sourceReference := f.sourceReference ++ [{ repository := repository, revisionId := revision }] }

/-- WithProjectID (src/options.go). -/
def WithProjectID (i : String) : FmtOption := fun f => { f with projectID := i }

/-- WithStackSkip (src/options.go). -/
def WithStackSkip (v : String) : FmtOption := fun f => { f with stackSkip := f.stackSkip ++ [v] }

/-- WithRegexSkip (src/options.go); the compiled matcher stands for the
regular expression string. -/
def WithRegexSkip (m : String → Bool) : FmtOption := fun f => { f with regexSkip := some m }

/-- WithSkipTimestamp (src/options.go). -/
def WithSkipTimestamp : FmtOption := fun f => { f with skipTimestamp := true }

/-- WithStackTraceStyle (src/options.go). -/
def WithStackTraceStyle (s : StackTraceStyle) : FmtOption := fun f => { f with stackStyle := s }

/-- WithPrettyPrint (src/options.go). -/
def WithPrettyPrint : FmtOption := fun f => { f with prettyPrint := true }

/-- Modelled from the spec: the WithGlobalTraceID option is not under src/
(only its uses in NewFormatter and the tests are); per the specification it
configures the global fallback trace identifier on the formatter, here as
the identifier string. -/
def WithGlobalTraceID (id : String) : FmtOption := fun f => { f with globalTraceID := id }

/-- The zero-value formatter with the default skip list and stack style,
before options are applied (src/formatter.go NewFormatter). -/
def defaultFormatter : Formatter :=
  { stackSkip := ["github.com/sirupsen/logrus",
                  "github.com/StevenACoffman/logrus-stackdriver-formatter",
                  "github.com/grpc-ecosystem/go-grpc-middleware",
                  "go.opentelemetry.io"],
    stackStyle := .traceInMessage }

/-- Fold the construction options over the default formatter. -/
def applyFmtOptions (options : List FmtOption) : Formatter :=
  options.foldl (fun f o => o f) defaultFormatter

/-- NewFormatter (src/formatter.go): apply the options, then generate the
global fallback trace id when none was configured; `freshUUID` stands for
the random UUID drawn at construction time. -/
def NewFormatter (options : List FmtOption) (freshUUID : String) : Formatter :=
  let fmtr := applyFmtOptions options
  if fmtr.globalTraceID = "" then WithGlobalTraceID freshUUID fmtr else fmtr

/-- A log record as emitted through logrus by the middleware: level,
message and the WithError / WithField string payloads. -/
structure LogRecord where
  level : Level := .info
  message : String := ""
  fields : List (String × String) := []
  deriving DecidableEq, Repr, Inhabited

/-- The claim-relevant shape of an incoming net/http Request. -/
structure HTTPIncoming where
  method : String := ""
  urlPath : String := ""
  userAgent : String := ""
  deriving DecidableEq, Repr, Inhabited

/-- DefaultFilterHTTP (src/middleware_options.go): health checks and the
well-known monitoring canaries are filtered out of summary logging. -/
def DefaultFilterHTTP (r : HTTPIncoming) : Bool :=
  if r.userAgent = "Envoy/HC"
      ∨ strHasPre r.userAgent "kube-probe/"
      ∨ strHasPre r.userAgent "GoogleHC/"
      ∨ strHasPre r.userAgent "GoogleStackdriverMonitoring"
      ∨ strHasPre r.urlPath "/health" then
    false
  else true

/-- DefaultFilterRPC (src/middleware_options.go): gRPC health checks and
reflection are filtered out (the context and error arguments are unused in
the source and elided here). -/
def DefaultFilterRPC (fullMethod : String) : Bool :=
  if strHasPre fullMethod "/grpc.health" then false
  else if strHasPre fullMethod "/grpc.reflection" then false
  else true

/-- DefaultErrorHandler (src/middleware_options.go) does nothing. -/
def DefaultErrorHandler (_err _method : String) : Bool := false

/-- Middleware options (src/middleware_options.go); the context arguments
of the error handler are elided. -/
structure MiddlewareOptions where
  filterRPC : String → Bool
  filterHTTP : HTTPIncoming → Bool
  customErrHandler : String → String → Bool

/-- defaultLogOptions (src/middleware_options.go). -/
def defaultLogOptions : MiddlewareOptions :=
  { filterRPC := DefaultFilterRPC,
    filterHTTP := DefaultFilterHTTP,
    customErrHandler := DefaultErrorHandler }

/-- A middleware configuration option. -/
def MiddlewareOption : Type := MiddlewareOptions → MiddlewareOptions

/-- evaluateMiddlewareOptions (src/middleware_options.go): copy the default
options and apply the overrides in order. -/
def evaluateMiddlewareOptions (opts : List MiddlewareOption) : MiddlewareOptions :=
  opts.foldl (fun o f => f o) defaultLogOptions

/-- WithRPCFilter (src/middleware_options.go). -/
def WithRPCFilter (f : String → Bool) : MiddlewareOption :=
  fun o => { o with filterRPC := f }

/-- WithHTTPFilter (src/middleware_options.go). -/
def WithHTTPFilter (f : HTTPIncoming → Bool) : MiddlewareOption :=
  fun o => { o with filterHTTP := f }

/-- WithErrorHandler (src/middleware_options.go). -/
def WithErrorHandler (h : String → String → Bool) : MiddlewareOption :=
  fun o => { o with customErrHandler := h }

/-- The summary records the HTTP LoggingMiddleware wrapper itself emits for
one request (src/middleware.go): after the wrapped handler completes, one
INFO summary record when the configured filter accepts the request, none
otherwise. The request-metadata capture (latency, status code, sizes)
mutates the httpRequest field of the request-scoped entry and does not
affect whether the summary record is emitted, so it is not repeated here. -/
def loggingMiddlewareSummaries (o : MiddlewareOptions) (r : HTTPIncoming) : List LogRecord :=
  if o.filterHTTP r then
    [{ level := .info, message := "served HTTP " ++ r.method ++ " " ++ r.urlPath }]
  else []

/-- A value recovered from a Go panic: a string, an error (carrying its
message), or any other value (carrying the fmt rendering that the %w verb
gives a non-error operand). -/
inductive GoValue where
  | str (s : String)
  | err (msg : String)
  | other (rendering : String)
  deriving DecidableEq, Repr, Inhabited

/-- The response observed by the HTTP client. -/
structure HTTPResponse where
  status : Nat := 0
  contentType : String := ""
  body : String := ""
  deriving DecidableEq, Repr, Inhabited

/-- The outcome of running the wrapped handler: a normal completion with
the response it wrote, or a panic. -/
inductive HandlerOutcome where
  | normal (resp : HTTPResponse)
  | panicked (v : GoValue)

/-- Panic-value normalisation of RecoveryMiddleware (src/middleware.go):
a string becomes errors.New of that text, an error passes through, and any
other value becomes fmt.Errorf("unknown error: %w", t). -/
def normalizePanic : GoValue → String
  | .str s => s
  | .err m => m
  | .other r => "unknown error: " ++ r

/-- protojson rendering (EmitUnpopulated) of the google.rpc.Status built by
errWithStack: Internal code 13, message "server error", and a RequestInfo
detail carrying the correlation identifier. -/
def marshalStatus (reqId : String) : String :=
  "\x7b\"code\":13,\"message\":\"server error\",\"details\":[\x7b\"@type\":\"type.googleapis.com/google.rpc.RequestInfo\",\"requestId\":\"" ++
    reqId ++ "\",\"servingData\":\"\"\x7d]\x7d"

/-- errWithStack (src/middleware.go): capture the recovery-time stack
(debug.Stack, the `stk` argument), log one ERROR record carrying the error
and that stack, and build the internal-server-error status whose detail is
a fresh short-uuid correlation identifier (the `reqId` argument). -/
def errWithStack (stk reqId errMsg : String) : String × LogRecord :=
  (marshalStatus reqId,
   { level := .error, message := "panic handling request",
     fields := [("error", errMsg), ("stackTrace", stk)] })

/-- RecoveryMiddleware (src/middleware.go): on a normal handler completion
the response passes through untouched and nothing is logged; on a panic the
recovered value is normalised to an error, the response is given status
500 and JSON content type, errWithStack logs the ERROR record, and the
marshalled status becomes the body. protojson.Marshal cannot fail on the
well-formed status errWithStack builds, so the fallback body branch of the
source is unreachable, and the response writer is a buffer whose writes
succeed. The middleware always returns normally: its result type has no
panic outcome. -/
def RecoveryMiddleware (stk reqId : String) (outcome : HandlerOutcome) :
    HTTPResponse × List LogRecord :=
  match outcome with
  | .normal resp => (resp, [])
  | .panicked v =>
    let errMsg := normalizePanic v
    let p := errWithStack stk reqId errMsg
    ({ status := 500, contentType := "application/json", body := p.1 }, [p.2])

/-! Concrete inputs used to evaluate the embedded code on specific records. -/

/-- A formatter with a service name but an empty version. -/
def c1Formatter : Formatter :=
  { service := "test", version := "", projectID := "tp", skipTimestamp := true,
    globalTraceID := "gtid" }

/-- An ERROR record with a non-empty message and a logrus-supplied caller. -/
def c1Entry : LogrusEntry :=
  { level := .error, message := "my log entry",
    caller := some { file := "main.go", line := 10, function := "main" } }

/-- The entry assembled from c1Formatter and c1Entry. -/
def c1Assembled : Entry :=
  match ToEntry c1Formatter c1Entry [] "" with
  | .ok p => p.1
  | .error _ => default

/-- A minimal formatter for the pubSubRequest promotion run. -/
def c2Formatter : Formatter := { skipTimestamp := true, globalTraceID := "g" }

/-- A record carrying a pubSubRequest field of the expected map shape. -/
def c2Entry : LogrusEntry :=
  { level := .info, message := "m",
    data := [("pubSubRequest", .mapVal [("a", .str "b")])],
    caller := some {} }

/-- The formatter of the concrete scenario: service "test", version "0.1". -/
def c3Formatter : Formatter :=
  { service := "test", version := "0.1", projectID := "test-project",
    skipTimestamp := true, globalTraceID := "g" }

/-- The record of the concrete scenario: ERROR, message "my log entry",
field foo=bar, attached error "test error". -/
def c3Entry : LogrusEntry :=
  { level := .error, message := "my log entry",
    data := [("foo", .str "bar"), ("error", .goError "test error" none)],
    caller := some { file := "formatter_test.go", line := 42, function := "TestFormatter" } }

/-- A fully configured formatter for the below-ERROR run. -/
def c4Formatter : Formatter :=
  { service := "test", version := "0.1", skipTimestamp := true, globalTraceID := "g" }

/-- An INFO record that carries an attached error value. -/
def c4Entry : LogrusEntry :=
  { level := .info, message := "my log entry",
    data := [("error", .goError "test error" none)],
    caller := some {} }

/-- The entry assembled from c4Formatter and c4Entry. -/
def c4Assembled : Entry :=
  match ToEntry c4Formatter c4Entry [] "" with
  | .ok p => p.1
  | .error _ => default

/-- A formatter whose skip list contains the substring "github.com/skipme". -/
def c5Formatter : Formatter := { stackSkip := ["github.com/skipme"], globalTraceID := "g" }

/-- A vendored frame whose stripped package path contains the skip entry. -/
def c5Frame : Frame :=
  { pkg := "a/vendor/github.com/skipme/pkg", file := "s.go", line := 1,
    function := "fn", fullFunction := "github.com/skipme/pkg.fn" }

/-- A call stack starting at the skipped frame. -/
def c5Stack : List Frame :=
  [c5Frame,
   { pkg := "main", file := "main.go", line := 2, function := "main", fullFunction := "main.main" }]

/-- A formatter whose skip list filters the whole c6Stack. -/
def c6Formatter : Formatter :=
  { service := "svc", stackSkip := ["github.com/skipall"], skipTimestamp := true,
    globalTraceID := "g" }

/-- A record with no framework-supplied caller. -/
def c6Entry : LogrusEntry := { level := .info, message := "m" }

/-- An ambient call stack every frame of which is skip-listed. -/
def c6Stack : List Frame :=
  [{ pkg := "github.com/skipall/x", file := "x.go", line := 5, function := "f",
     fullFunction := "github.com/skipall/x.f" }]

/-- The entry assembled from c6Formatter and c6Entry over the exhausted
stack. -/
def c6Assembled : Entry :=
  match ToEntry c6Formatter c6Entry c6Stack "" with
  | .ok p => p.1
  | .error _ => default

/-- The span context of the trace-correlation run: trace id
105445aa7843bc8bf206b12000100000, span id ending in 0x01, sampled. -/
def c7SpanCtx : SpanContext :=
  { traceIDBytes := [16, 84, 69, 170, 120, 67, 188, 139, 242, 6, 177, 32, 0, 16, 0, 0],
    spanIDBytes := [0, 0, 0, 0, 0, 0, 0, 1],
    sampled := true }

/-- The formatter of the trace-correlation run. -/
def c7Formatter : Formatter :=
  { projectID := "test-project", skipTimestamp := true, globalTraceID := "g" }

/-- A record carrying the span context. -/
def c7Entry : LogrusEntry :=
  { level := .error, message := "my log entry",
    data := [("span_context", .spanCtx c7SpanCtx)],
    caller := some {} }

/-- The entry assembled from c7Formatter and c7Entry. -/
def c7Assembled : Entry :=
  match ToEntry c7Formatter c7Entry [] "" with
  | .ok p => p.1
  | .error _ => default

/-- A health-check request. -/
def c9Request : HTTPIncoming :=
  { method := "GET", urlPath := "/healthz", userAgent := "curl/8" }

/-- A record whose logID field is not a string (it is an error value). -/
def c10Entry : LogrusEntry :=
  { level := .info, message := "m",
    data := [("logID", .goError "boom" none)],
    caller := some {} }

/-! Helper lemmas. -/

/-- String concatenation concatenates the character data. -/
theorem strDataAppend (a b : String) : (a ++ b).data = a.data ++ b.data := rfl

/-- A non-empty string has positive length. -/
theorem strLengthPos (s : String) (h : s ≠ "") : 0 < s.length := by
  cases s with
  | mk data =>
    cases data with
    | nil => exact absurd rfl h
    | cons a as => simp [String.length]

/-- A list is a prefix of itself extended on the right. -/
theorem isPre_refl_append (l t : List Char) : isPre l (l ++ t) = true := by
  induction l with
  | nil => rfl
  | cons a as ih => simp [isPre, ih]

/-- containsSub holds when the pattern is a prefix. -/
theorem containsSub_of_isPre (s pat : List Char) (h : isPre pat s = true) :
    containsSub s pat = true := by
  cases s with
  | nil => simpa [containsSub] using h
  | cons c rest => simp [containsSub, h]

/-- containsSub holds for a pattern spliced into the middle. -/
theorem containsSub_mid (a r b : List Char) : containsSub (a ++ (r ++ b)) r = true := by
  induction a with
  | nil => exact containsSub_of_isPre _ _ (isPre_refl_append r b)
  | cons c as ih => simp [containsSub, ih]

/-- strContains holds for a pattern spliced into the middle. -/
theorem strContains_mid (a r b : String) : strContains (a ++ r ++ b) r = true := by
  unfold strContains
  have h : (a ++ r ++ b).data = a.data ++ (r.data ++ b.data) := by
    rw [strDataAppend, strDataAppend, List.append_assoc]
  rw [h]
  exact containsSub_mid a.data r.data b.data

/-- errorOrigin only returns frames that pass the skip list and the regex
filter. -/
theorem errorOrigin_passes (f : Formatter) (stk : List Frame) (c : Frame)
    (h : errorOrigin f stk = some c) :
    (!skipPkg f.stackSkip (stripVendor c.pkg) && passesRegex f.regexSkip c.fullFunction) = true := by
  induction stk with
  | nil => simp [errorOrigin] at h
  | cons hd tl ih =>
    unfold errorOrigin at h
    by_cases hc : (!skipPkg f.stackSkip (stripVendor hd.pkg) && passesRegex f.regexSkip hd.fullFunction) = true
    · rw [if_pos hc] at h
      cases h
      exact hc
    · rw [if_neg hc] at h
      exact ih h

/-- setTimestamp only writes the timestamp field. -/
theorem setTimestamp_eq (f : Formatter) (e : LogrusEntry) (now : String) (ee : Entry) :
    ∃ t, setTimestamp f e now ee = { ee with timestamp := t } := by
  unfold setTimestamp
  split
  · split <;> exact ⟨_, rfl⟩
  · exact ⟨ee.timestamp, rfl⟩

/-- setSourceLocation always writes a non-nil source location. -/
theorem setSourceLocation_eq (f : Formatter) (e : LogrusEntry) (callStack : List Frame) (ee : Entry) :
    ∃ s, setSourceLocation f e callStack ee = { ee with sourceLocation := some s } := by
  unfold setSourceLocation
  split
  · exact ⟨_, rfl⟩
  · split <;> exact ⟨_, rfl⟩

/-- A logrus-supplied caller is used as-is, independently of the ambient
call stack. -/
theorem setSourceLocation_caller (f : Formatter) (e : LogrusEntry) (callStack : List Frame)
    (ee : Entry) (c : Caller) (hc : e.caller = some c) :
    setSourceLocation f e callStack ee =
      { ee with sourceLocation := some { filePath := c.file, lineNumber := c.line, functionName := c.function } } := by
  unfold setSourceLocation
  rw [hc]

/-- Without a caller, an exhausted stack resolves to the sentinel
renderings. -/
theorem setSourceLocation_exhaust (f : Formatter) (e : LogrusEntry) (callStack : List Frame)
    (ee : Entry) (hc : e.caller = none) (ho : errorOrigin f callStack = none) :
    setSourceLocation f e callStack ee =
      { ee with sourceLocation := some { filePath := noFuncFile, lineNumber := 0, functionName := noFuncFunction } } := by
  unfold setSourceLocation
  rw [hc, ho]

/-- attachServiceContext writes the service descriptor and only touches the
report location and source references of the context. -/
theorem attachServiceContext_eq (f : Formatter) (ee : Entry) :
    ∃ rl srefs, attachServiceContext f ee =
      { ee with serviceContext := some { service := f.service, version := f.version },
                context := { ee.context with reportLocation := rl, sourceReferences := srefs } } := by
  unfold attachServiceContext
  dsimp only
  split
  · split <;> exact ⟨_, _, rfl⟩
  · split <;> exact ⟨_, _, rfl⟩

/-- errStackUpdate only writes the stack-trace field. -/
theorem errStackUpdate_eq (f : Formatter) (message : List String) (v : Value) (ee : Entry) :
    ∃ st, errStackUpdate f message v ee = { ee with stackTrace := st } := by
  unfold errStackUpdate
  split
  · split
    · split <;> exact ⟨_, rfl⟩
    · exact ⟨ee.stackTrace, rfl⟩
  · exact ⟨ee.stackTrace, rfl⟩

/-- errKeyStep only writes the stack-trace field and appends at most one
message part. -/
theorem errKeyStep_eq (f : Formatter) (e : LogrusEntry) (message : List String) (ee : Entry) :
    ∃ st m2, errKeyStep f e message ee = ({ ee with stackTrace := st }, m2) ∧
      (m2 = message ∨ ∃ x, m2 = message ++ [x]) := by
  unfold errKeyStep
  split
  · next v heq =>
    obtain ⟨st, hst⟩ := errStackUpdate_eq f message v ee
    exact ⟨st, message ++ [renderV v], by rw [hst], Or.inr ⟨_, rfl⟩⟩
  · exact ⟨ee.stackTrace, message, rfl, Or.inl rfl⟩

/-- stackTraceStep only writes the stack-trace field and the residual data
map, and appends at most one message part. -/
theorem stackTraceStep_eq (f : Formatter) (message : List String) (ee : Entry) :
    ∃ st d m2, stackTraceStep f message ee =
      ({ ee with stackTrace := st, context := { ee.context with data := d } }, m2) ∧
      (m2 = message ∨ ∃ x, m2 = message ++ [x]) := by
  unfold stackTraceStep
  split
  · next st heq =>
    split
    · split
      · exact ⟨_, _, _, rfl, Or.inr ⟨_, rfl⟩⟩
      · exact ⟨_, _, _, rfl, Or.inr ⟨_, rfl⟩⟩
    · split
      · exact ⟨_, _, _, rfl, Or.inl rfl⟩
      · exact ⟨_, _, _, rfl, Or.inl rfl⟩
  · exact ⟨ee.stackTrace, ee.context.data, message, rfl, Or.inl rfl⟩

/-- promoteUser only touches the context user and data fields. -/
theorem promoteUser_eq (ee : Entry) :
    ∃ u d, promoteUser ee = { ee with context := { ee.context with user := u, data := d } } := by
  unfold promoteUser
  split
  · exact ⟨_, _, rfl⟩
  · exact ⟨_, _, rfl⟩
  · exact ⟨ee.context.user, ee.context.data, rfl⟩

/-- promoteHTTPReq only touches the context httpRequest and data fields. -/
theorem promoteHTTPReq_eq (ee : Entry) :
    ∃ h d, promoteHTTPReq ee = { ee with context := { ee.context with httpRequest := h, data := d } } := by
  unfold promoteHTTPReq
  split
  · exact ⟨_, _, rfl⟩
  · exact ⟨ee.context.httpRequest, ee.context.data, rfl⟩

/-- promoteHTTPDetails only touches the entry httpRequest slot and the
context data field. -/
theorem promoteHTTPDetails_eq (ee : Entry) :
    ∃ h d, promoteHTTPDetails ee = { ee with httpRequest := h, context := { ee.context with data := d } } := by
  unfold promoteHTTPDetails
  split
  · exact ⟨_, _, rfl⟩
  · exact ⟨ee.httpRequest, ee.context.data, rfl⟩

/-- promoteGRPCReq only touches the context grpcRequest and data fields. -/
theorem promoteGRPCReq_eq (ee : Entry) :
    ∃ g d, promoteGRPCReq ee = { ee with context := { ee.context with grpcRequest := g, data := d } } := by
  unfold promoteGRPCReq
  split
  · exact ⟨_, _, rfl⟩
  · exact ⟨ee.context.grpcRequest, ee.context.data, rfl⟩

/-- promoteGRPCStatus only touches the context grpcStatus and data fields. -/
theorem promoteGRPCStatus_eq (ee : Entry) :
    ∃ g d, promoteGRPCStatus ee = { ee with context := { ee.context with grpcStatus := g, data := d } } := by
  unfold promoteGRPCStatus
  split
  · exact ⟨_, _, rfl⟩
  · exact ⟨ee.context.grpcStatus, ee.context.data, rfl⟩

/-- promotePubSub only touches the context pubSubRequest and data fields. -/
theorem promotePubSub_eq (ee : Entry) :
    ∃ p d, promotePubSub ee = { ee with context := { ee.context with pubSubRequest := p, data := d } } := by
  unfold promotePubSub
  split
  · exact ⟨_, _, rfl⟩
  · exact ⟨ee.context.pubSubRequest, ee.context.data, rfl⟩

@[simp] theorem promoteUser_type (ee : Entry) : (promoteUser ee).type = ee.type := by
  obtain ⟨a, b, h⟩ := promoteUser_eq ee; rw [h]

@[simp] theorem promoteUser_stackTrace (ee : Entry) : (promoteUser ee).stackTrace = ee.stackTrace := by
  obtain ⟨a, b, h⟩ := promoteUser_eq ee; rw [h]

@[simp] theorem promoteUser_sourceLocation (ee : Entry) : (promoteUser ee).sourceLocation = ee.sourceLocation := by
  obtain ⟨a, b, h⟩ := promoteUser_eq ee; rw [h]

@[simp] theorem promoteUser_serviceContext (ee : Entry) : (promoteUser ee).serviceContext = ee.serviceContext := by
  obtain ⟨a, b, h⟩ := promoteUser_eq ee; rw [h]

@[simp] theorem promoteUser_trace (ee : Entry) : (promoteUser ee).trace = ee.trace := by
  obtain ⟨a, b, h⟩ := promoteUser_eq ee; rw [h]

@[simp] theorem promoteUser_spanID (ee : Entry) : (promoteUser ee).spanID = ee.spanID := by
  obtain ⟨a, b, h⟩ := promoteUser_eq ee; rw [h]

@[simp] theorem promoteUser_traceSampled (ee : Entry) : (promoteUser ee).traceSampled = ee.traceSampled := by
  obtain ⟨a, b, h⟩ := promoteUser_eq ee; rw [h]

@[simp] theorem promoteUser_reportLocation (ee : Entry) :
    (promoteUser ee).context.reportLocation = ee.context.reportLocation := by
  obtain ⟨a, b, h⟩ := promoteUser_eq ee; rw [h]

@[simp] theorem promoteHTTPReq_type (ee : Entry) : (promoteHTTPReq ee).type = ee.type := by
  obtain ⟨a, b, h⟩ := promoteHTTPReq_eq ee; rw [h]

@[simp] theorem promoteHTTPReq_stackTrace (ee : Entry) : (promoteHTTPReq ee).stackTrace = ee.stackTrace := by
  obtain ⟨a, b, h⟩ := promoteHTTPReq_eq ee; rw [h]

@[simp] theorem promoteHTTPReq_sourceLocation (ee : Entry) : (promoteHTTPReq ee).sourceLocation = ee.sourceLocation := by
  obtain ⟨a, b, h⟩ := promoteHTTPReq_eq ee; rw [h]

@[simp] theorem promoteHTTPReq_serviceContext (ee : Entry) : (promoteHTTPReq ee).serviceContext = ee.serviceContext := by
  obtain ⟨a, b, h⟩ := promoteHTTPReq_eq ee; rw [h]

@[simp] theorem promoteHTTPReq_trace (ee : Entry) : (promoteHTTPReq ee).trace = ee.trace := by
  obtain ⟨a, b, h⟩ := promoteHTTPReq_eq ee; rw [h]

@[simp] theorem promoteHTTPReq_spanID (ee : Entry) : (promoteHTTPReq ee).spanID = ee.spanID := by
  obtain ⟨a, b, h⟩ := promoteHTTPReq_eq ee; rw [h]

@[simp] theorem promoteHTTPReq_traceSampled (ee : Entry) : (promoteHTTPReq ee).traceSampled = ee.traceSampled := by
  obtain ⟨a, b, h⟩ := promoteHTTPReq_eq ee; rw [h]

@[simp] theorem promoteHTTPReq_reportLocation (ee : Entry) :
    (promoteHTTPReq ee).context.reportLocation = ee.context.reportLocation := by
  obtain ⟨a, b, h⟩ := promoteHTTPReq_eq ee; rw [h]

@[simp] theorem promoteHTTPDetails_type (ee : Entry) : (promoteHTTPDetails ee).type = ee.type := by
  obtain ⟨a, b, h⟩ := promoteHTTPDetails_eq ee; rw [h]

@[simp] theorem promoteHTTPDetails_stackTrace (ee : Entry) : (promoteHTTPDetails ee).stackTrace = ee.stackTrace := by
  obtain ⟨a, b, h⟩ := promoteHTTPDetails_eq ee; rw [h]

@[simp] theorem promoteHTTPDetails_sourceLocation (ee : Entry) : (promoteHTTPDetails ee).sourceLocation = ee.sourceLocation := by
  obtain ⟨a, b, h⟩ := promoteHTTPDetails_eq ee; rw [h]

@[simp] theorem promoteHTTPDetails_serviceContext (ee : Entry) : (promoteHTTPDetails ee).serviceContext = ee.serviceContext := by
  obtain ⟨a, b, h⟩ := promoteHTTPDetails_eq ee; rw [h]

@[simp] theorem promoteHTTPDetails_trace (ee : Entry) : (promoteHTTPDetails ee).trace = ee.trace := by
  obtain ⟨a, b, h⟩ := promoteHTTPDetails_eq ee; rw [h]

@[simp] theorem promoteHTTPDetails_spanID (ee : Entry) : (promoteHTTPDetails ee).spanID = ee.spanID := by
  obtain ⟨a, b, h⟩ := promoteHTTPDetails_eq ee; rw [h]

@[simp] theorem promoteHTTPDetails_traceSampled (ee : Entry) : (promoteHTTPDetails ee).traceSampled = ee.traceSampled := by
  obtain ⟨a, b, h⟩ := promoteHTTPDetails_eq ee; rw [h]

@[simp] theorem promoteHTTPDetails_reportLocation (ee : Entry) :
    (promoteHTTPDetails ee).context.reportLocation = ee.context.reportLocation := by
  obtain ⟨a, b, h⟩ := promoteHTTPDetails_eq ee; rw [h]

@[simp] theorem promoteGRPCReq_type (ee : Entry) : (promoteGRPCReq ee).type = ee.type := by
  obtain ⟨a, b, h⟩ := promoteGRPCReq_eq ee; rw [h]

@[simp] theorem promoteGRPCReq_stackTrace (ee : Entry) : (promoteGRPCReq ee).stackTrace = ee.stackTrace := by
  obtain ⟨a, b, h⟩ := promoteGRPCReq_eq ee; rw [h]

@[simp] theorem promoteGRPCReq_sourceLocation (ee : Entry) : (promoteGRPCReq ee).sourceLocation = ee.sourceLocation := by
  obtain ⟨a, b, h⟩ := promoteGRPCReq_eq ee; rw [h]

@[simp] theorem promoteGRPCReq_serviceContext (ee : Entry) : (promoteGRPCReq ee).serviceContext = ee.serviceContext := by
  obtain ⟨a, b, h⟩ := promoteGRPCReq_eq ee; rw [h]

@[simp] theorem promoteGRPCReq_trace (ee : Entry) : (promoteGRPCReq ee).trace = ee.trace := by
  obtain ⟨a, b, h⟩ := promoteGRPCReq_eq ee; rw [h]

@[simp] theorem promoteGRPCReq_spanID (ee : Entry) : (promoteGRPCReq ee).spanID = ee.spanID := by
  obtain ⟨a, b, h⟩ := promoteGRPCReq_eq ee; rw [h]

@[simp] theorem promoteGRPCReq_traceSampled (ee : Entry) : (promoteGRPCReq ee).traceSampled = ee.traceSampled := by
  obtain ⟨a, b, h⟩ := promoteGRPCReq_eq ee; rw [h]

@[simp] theorem promoteGRPCReq_reportLocation (ee : Entry) :
    (promoteGRPCReq ee).context.reportLocation = ee.context.reportLocation := by
  obtain ⟨a, b, h⟩ := promoteGRPCReq_eq ee; rw [h]

@[simp] theorem promoteGRPCStatus_type (ee : Entry) : (promoteGRPCStatus ee).type = ee.type := by
  obtain ⟨a, b, h⟩ := promoteGRPCStatus_eq ee; rw [h]

@[simp] theorem promoteGRPCStatus_stackTrace (ee : Entry) : (promoteGRPCStatus ee).stackTrace = ee.stackTrace := by
  obtain ⟨a, b, h⟩ := promoteGRPCStatus_eq ee; rw [h]

@[simp] theorem promoteGRPCStatus_sourceLocation (ee : Entry) : (promoteGRPCStatus ee).sourceLocation = ee.sourceLocation := by
  obtain ⟨a, b, h⟩ := promoteGRPCStatus_eq ee; rw [h]

@[simp] theorem promoteGRPCStatus_serviceContext (ee : Entry) : (promoteGRPCStatus ee).serviceContext = ee.serviceContext := by
  obtain ⟨a, b, h⟩ := promoteGRPCStatus_eq ee; rw [h]

@[simp] theorem promoteGRPCStatus_trace (ee : Entry) : (promoteGRPCStatus ee).trace = ee.trace := by
  obtain ⟨a, b, h⟩ := promoteGRPCStatus_eq ee; rw [h]

@[simp] theorem promoteGRPCStatus_spanID (ee : Entry) : (promoteGRPCStatus ee).spanID = ee.spanID := by
  obtain ⟨a, b, h⟩ := promoteGRPCStatus_eq ee; rw [h]

@[simp] theorem promoteGRPCStatus_traceSampled (ee : Entry) : (promoteGRPCStatus ee).traceSampled = ee.traceSampled := by
  obtain ⟨a, b, h⟩ := promoteGRPCStatus_eq ee; rw [h]

@[simp] theorem promoteGRPCStatus_reportLocation (ee : Entry) :
    (promoteGRPCStatus ee).context.reportLocation = ee.context.reportLocation := by
  obtain ⟨a, b, h⟩ := promoteGRPCStatus_eq ee; rw [h]

@[simp] theorem promotePubSub_type (ee : Entry) : (promotePubSub ee).type = ee.type := by
  obtain ⟨a, b, h⟩ := promotePubSub_eq ee; rw [h]

@[simp] theorem promotePubSub_stackTrace (ee : Entry) : (promotePubSub ee).stackTrace = ee.stackTrace := by
  obtain ⟨a, b, h⟩ := promotePubSub_eq ee; rw [h]

@[simp] theorem promotePubSub_sourceLocation (ee : Entry) : (promotePubSub ee).sourceLocation = ee.sourceLocation := by
  obtain ⟨a, b, h⟩ := promotePubSub_eq ee; rw [h]

@[simp] theorem promotePubSub_serviceContext (ee : Entry) : (promotePubSub ee).serviceContext = ee.serviceContext := by
  obtain ⟨a, b, h⟩ := promotePubSub_eq ee; rw [h]

@[simp] theorem promotePubSub_trace (ee : Entry) : (promotePubSub ee).trace = ee.trace := by
  obtain ⟨a, b, h⟩ := promotePubSub_eq ee; rw [h]

@[simp] theorem promotePubSub_spanID (ee : Entry) : (promotePubSub ee).spanID = ee.spanID := by
  obtain ⟨a, b, h⟩ := promotePubSub_eq ee; rw [h]

@[simp] theorem promotePubSub_traceSampled (ee : Entry) : (promotePubSub ee).traceSampled = ee.traceSampled := by
  obtain ⟨a, b, h⟩ := promotePubSub_eq ee; rw [h]

@[simp] theorem promotePubSub_reportLocation (ee : Entry) :
    (promotePubSub ee).context.reportLocation = ee.context.reportLocation := by
  obtain ⟨a, b, h⟩ := promotePubSub_eq ee; rw [h]

@[simp] theorem setTimestamp_type (f : Formatter) (e : LogrusEntry) (now : String) (ee : Entry) :
    (setTimestamp f e now ee).type = ee.type := by
  obtain ⟨t, h⟩ := setTimestamp_eq f e now ee; rw [h]

@[simp] theorem setTimestamp_stackTrace (f : Formatter) (e : LogrusEntry) (now : String) (ee : Entry) :
    (setTimestamp f e now ee).stackTrace = ee.stackTrace := by
  obtain ⟨t, h⟩ := setTimestamp_eq f e now ee; rw [h]

@[simp] theorem setTimestamp_sourceLocation (f : Formatter) (e : LogrusEntry) (now : String) (ee : Entry) :
    (setTimestamp f e now ee).sourceLocation = ee.sourceLocation := by
  obtain ⟨t, h⟩ := setTimestamp_eq f e now ee; rw [h]

@[simp] theorem setTimestamp_serviceContext (f : Formatter) (e : LogrusEntry) (now : String) (ee : Entry) :
    (setTimestamp f e now ee).serviceContext = ee.serviceContext := by
  obtain ⟨t, h⟩ := setTimestamp_eq f e now ee; rw [h]

@[simp] theorem setTimestamp_trace (f : Formatter) (e : LogrusEntry) (now : String) (ee : Entry) :
    (setTimestamp f e now ee).trace = ee.trace := by
  obtain ⟨t, h⟩ := setTimestamp_eq f e now ee; rw [h]

@[simp] theorem setTimestamp_spanID (f : Formatter) (e : LogrusEntry) (now : String) (ee : Entry) :
    (setTimestamp f e now ee).spanID = ee.spanID := by
  obtain ⟨t, h⟩ := setTimestamp_eq f e now ee; rw [h]

@[simp] theorem setTimestamp_traceSampled (f : Formatter) (e : LogrusEntry) (now : String) (ee : Entry) :
    (setTimestamp f e now ee).traceSampled = ee.traceSampled := by
  obtain ⟨t, h⟩ := setTimestamp_eq f e now ee; rw [h]

@[simp] theorem setTimestamp_reportLocation (f : Formatter) (e : LogrusEntry) (now : String) (ee : Entry) :
    (setTimestamp f e now ee).context.reportLocation = ee.context.reportLocation := by
  obtain ⟨t, h⟩ := setTimestamp_eq f e now ee; rw [h]

@[simp] theorem setSourceLocation_type (f : Formatter) (e : LogrusEntry) (stk : List Frame) (ee : Entry) :
    (setSourceLocation f e stk ee).type = ee.type := by
  obtain ⟨s, h⟩ := setSourceLocation_eq f e stk ee; rw [h]

@[simp] theorem setSourceLocation_stackTrace (f : Formatter) (e : LogrusEntry) (stk : List Frame) (ee : Entry) :
    (setSourceLocation f e stk ee).stackTrace = ee.stackTrace := by
  obtain ⟨s, h⟩ := setSourceLocation_eq f e stk ee; rw [h]

@[simp] theorem setSourceLocation_serviceContext (f : Formatter) (e : LogrusEntry) (stk : List Frame) (ee : Entry) :
    (setSourceLocation f e stk ee).serviceContext = ee.serviceContext := by
  obtain ⟨s, h⟩ := setSourceLocation_eq f e stk ee; rw [h]

@[simp] theorem setSourceLocation_trace (f : Formatter) (e : LogrusEntry) (stk : List Frame) (ee : Entry) :
    (setSourceLocation f e stk ee).trace = ee.trace := by
  obtain ⟨s, h⟩ := setSourceLocation_eq f e stk ee; rw [h]

@[simp] theorem setSourceLocation_spanID (f : Formatter) (e : LogrusEntry) (stk : List Frame) (ee : Entry) :
    (setSourceLocation f e stk ee).spanID = ee.spanID := by
  obtain ⟨s, h⟩ := setSourceLocation_eq f e stk ee; rw [h]

@[simp] theorem setSourceLocation_traceSampled (f : Formatter) (e : LogrusEntry) (stk : List Frame) (ee : Entry) :
    (setSourceLocation f e stk ee).traceSampled = ee.traceSampled := by
  obtain ⟨s, h⟩ := setSourceLocation_eq f e stk ee; rw [h]

@[simp] theorem setSourceLocation_reportLocation (f : Formatter) (e : LogrusEntry) (stk : List Frame) (ee : Entry) :
    (setSourceLocation f e stk ee).context.reportLocation = ee.context.reportLocation := by
  obtain ⟨s, h⟩ := setSourceLocation_eq f e stk ee; rw [h]

@[simp] theorem setSourceLocation_isSome (f : Formatter) (e : LogrusEntry) (stk : List Frame) (ee : Entry) :
    (setSourceLocation f e stk ee).sourceLocation.isSome = true := by
  obtain ⟨s, h⟩ := setSourceLocation_eq f e stk ee; rw [h]; rfl

theorem errorBranchFst_eq (f : Formatter) (e : LogrusEntry) (message : List String) (ee : Entry) :
    ∃ sc rl srefs st d ty, (errorBranch f e message ee).1 =
      { ee with serviceContext := sc, stackTrace := st, type := ty,
                context := { ee.context with reportLocation := rl, sourceReferences := srefs, data := d } } := by
  unfold errorBranch
  dsimp only
  obtain ⟨rl, srefs, hA⟩ := attachServiceContext_eq f ee
  set A := attachServiceContext f ee with hAdef
  obtain ⟨st, m2, hK, _⟩ := errKeyStep_eq f e message A
  rw [hK]
  dsimp only
  obtain ⟨st2, d2, m3, hS, _⟩ := stackTraceStep_eq f m2 { A with stackTrace := st }
  rw [hS]
  dsimp only
  rw [hA]
  split
  · exact ⟨_, _, _, _, _, _, rfl⟩
  · exact ⟨_, _, _, _, _, _, rfl⟩

theorem severityBlockFst_eq (f : Formatter) (e : LogrusEntry) (sev : String) (message : List String) (ee : Entry) :
    ∃ sc rl srefs st d ty, (severityBlock f e sev message ee).1 =
      { ee with serviceContext := sc, stackTrace := st, type := ty,
                context := { ee.context with reportLocation := rl, sourceReferences := srefs, data := d } } := by
  unfold severityBlock
  split
  · exact errorBranchFst_eq f e message ee
  · exact ⟨ee.serviceContext, ee.context.reportLocation, ee.context.sourceReferences,
           ee.stackTrace, ee.context.data, ee.type, rfl⟩

@[simp] theorem severityBlockFst_trace (f : Formatter) (e : LogrusEntry) (sev : String)
    (message : List String) (ee : Entry) :
    (severityBlock f e sev message ee).1.trace = ee.trace := by
  obtain ⟨a, b, c, d, g, i, h⟩ := severityBlockFst_eq f e sev message ee; rw [h]

@[simp] theorem severityBlockFst_spanID (f : Formatter) (e : LogrusEntry) (sev : String)
    (message : List String) (ee : Entry) :
    (severityBlock f e sev message ee).1.spanID = ee.spanID := by
  obtain ⟨a, b, c, d, g, i, h⟩ := severityBlockFst_eq f e sev message ee; rw [h]

@[simp] theorem severityBlockFst_traceSampled (f : Formatter) (e : LogrusEntry) (sev : String)
    (message : List String) (ee : Entry) :
    (severityBlock f e sev message ee).1.traceSampled = ee.traceSampled := by
  obtain ⟨a, b, c, d, g, i, h⟩ := severityBlockFst_eq f e sev message ee; rw [h]

@[simp] theorem severityBlockFst_sourceLocation (f : Formatter) (e : LogrusEntry) (sev : String)
    (message : List String) (ee : Entry) :
    (severityBlock f e sev message ee).1.sourceLocation = ee.sourceLocation := by
  obtain ⟨a, b, c, d, g, i, h⟩ := severityBlockFst_eq f e sev message ee; rw [h]

theorem severityBlock_low (f : Formatter) (e : LogrusEntry) (sev : String) (message : List String)
    (ee : Entry) (h : ¬(sev = "ERROR" ∨ sev = "CRITICAL" ∨ sev = "ALERT")) :
    severityBlock f e sev message ee = (ee, message) := by
  unfold severityBlock; rw [if_neg h]

theorem setMessageParts_pos (e : LogrusEntry) (h : e.message ≠ "") :
    setMessageParts e = [e.message] := by
  unfold setMessageParts; rw [if_pos (strLengthPos _ h)]

theorem errorBranch_char (f : Formatter) (e : LogrusEntry) (message : List String) (ee : Entry)
    (hty : ee.type = "") (hsl : ee.sourceLocation.isSome = true) (hmsg : message ≠ []) :
    ((errorBranch f e message ee).1.type = reportedErrorEventType ↔ f.service ≠ "") ∧
    (errorBranch f e message ee).1.sourceLocation.isSome = true := by
  have htagne : ("" : String) ≠ reportedErrorEventType := by decide
  unfold errorBranch
  dsimp only
  obtain ⟨rl, srefs, hA⟩ := attachServiceContext_eq f ee
  set A := attachServiceContext f ee with hAdef
  obtain ⟨st, m2, hK, hm2⟩ := errKeyStep_eq f e message A
  rw [hK]
  dsimp only
  obtain ⟨st2, d2, m3, hS, hm3⟩ := stackTraceStep_eq f m2 { A with stackTrace := st }
  rw [hS]
  dsimp only
  have hm2ne : m2 ≠ [] := by
    rcases hm2 with h | ⟨x, h⟩
    · rw [h]; exact hmsg
    · rw [h]; simp
  have hm3ne : m3 ≠ [] := by
    rcases hm3 with h | ⟨x, h⟩
    · rw [h]; exact hm2ne
    · rw [h]; simp
  have hlen : 0 < m3.length := List.length_pos.mpr hm3ne
  rw [hA]
  by_cases hsv : f.service = ""
  · rw [if_neg]
    · constructor
      · dsimp only
        rw [hty]
        simp [hsv, htagne]
      · dsimp only
        exact hsl
    · dsimp only
      simp [serviceContextService, hsv]
  · rw [if_pos]
    · constructor
      · dsimp only
        simp [reportedErrorEventType, hsv]
      · dsimp only
        exact hsl
    · refine ⟨hlen, ?_, Or.inr ?_⟩
      · dsimp only
        simp [serviceContextService, hsv]
      · dsimp only
        exact hsl

theorem initEntry_eq (f : Formatter) (e : LogrusEntry) :
    ∃ tr sp sa d, initEntry f e =
      { severity := levelsToSeverity e.level, context := { data := d },
        trace := tr, spanID := sp, traceSampled := sa } := by
  unfold initEntry
  dsimp only
  repeat' split
  all_goals exact ⟨_, _, _, _, rfl⟩

theorem initEntry_type (f : Formatter) (e : LogrusEntry) : (initEntry f e).type = "" := by
  obtain ⟨a, b, c, d, h⟩ := initEntry_eq f e; rw [h]

theorem initEntry_stackTrace (f : Formatter) (e : LogrusEntry) : (initEntry f e).stackTrace = "" := by
  obtain ⟨a, b, c, d, h⟩ := initEntry_eq f e; rw [h]

theorem initEntry_serviceContext (f : Formatter) (e : LogrusEntry) :
    (initEntry f e).serviceContext = none := by
  obtain ⟨a, b, c, d, h⟩ := initEntry_eq f e; rw [h]

theorem initEntry_reportLocation (f : Formatter) (e : LogrusEntry) :
    (initEntry f e).context.reportLocation = none := by
  obtain ⟨a, b, c, d, h⟩ := initEntry_eq f e; rw [h]

theorem initEntry_sourceLocation (f : Formatter) (e : LogrusEntry) :
    (initEntry f e).sourceLocation = none := by
  obtain ⟨a, b, c, d, h⟩ := initEntry_eq f e; rw [h]

theorem ToEntry_ok_shape (f : Formatter) (e : LogrusEntry) (stk : List Frame) (now : String)
    (ee : Entry) (eo : Option String) (h : ToEntry f e stk now = .ok (ee, eo)) :
    ∃ ee0, ee = toEntryCore f e stk now ee0 ∧ eo = none ∧ ee0.type = "" ∧ ee0.stackTrace = "" ∧
      ee0.serviceContext = none ∧ ee0.context.reportLocation = none ∧ ee0.sourceLocation = none ∧
      ee0.trace = (initEntry f e).trace ∧ ee0.spanID = (initEntry f e).spanID ∧
      ee0.traceSampled = (initEntry f e).traceSampled := by
  unfold ToEntry at h
  dsimp only at h
  split at h
  · split at h
    · simp only [Except.ok.injEq, Prod.mk.injEq] at h
      obtain ⟨hee, heo⟩ := h
      refine ⟨_, hee.symm, heo.symm, ?_, ?_, ?_, ?_, ?_, rfl, rfl, rfl⟩
      · exact initEntry_type f e
      · exact initEntry_stackTrace f e
      · exact initEntry_serviceContext f e
      · exact initEntry_reportLocation f e
      · exact initEntry_sourceLocation f e
    · cases h
  · simp only [Except.ok.injEq, Prod.mk.injEq] at h
    obtain ⟨hee, heo⟩ := h
    refine ⟨_, hee.symm, heo.symm, ?_, ?_, ?_, ?_, ?_, rfl, rfl, rfl⟩
    · exact initEntry_type f e
    · exact initEntry_stackTrace f e
    · exact initEntry_serviceContext f e
    · exact initEntry_reportLocation f e
    · exact initEntry_sourceLocation f e

theorem toEntryCore_trace (f : Formatter) (e : LogrusEntry) (stk : List Frame) (now : String)
    (ee : Entry) : (toEntryCore f e stk now ee).trace = ee.trace := by
  unfold toEntryCore; dsimp only; simp

theorem toEntryCore_spanID (f : Formatter) (e : LogrusEntry) (stk : List Frame) (now : String)
    (ee : Entry) : (toEntryCore f e stk now ee).spanID = ee.spanID := by
  unfold toEntryCore; dsimp only; simp

theorem toEntryCore_traceSampled (f : Formatter) (e : LogrusEntry) (stk : List Frame) (now : String)
    (ee : Entry) : (toEntryCore f e stk now ee).traceSampled = ee.traceSampled := by
  unfold toEntryCore; dsimp only; simp

theorem toEntryCore_sourceLocation (f : Formatter) (e : LogrusEntry) (stk : List Frame) (now : String)
    (ee : Entry) :
    (toEntryCore f e stk now ee).sourceLocation =
      (setSourceLocation f e stk (setTimestamp f e now ee)).sourceLocation := by
  unfold toEntryCore; dsimp only; simp

theorem toEntryCore_caller_irrel (f : Formatter) (e : LogrusEntry) (stk stk2 : List Frame)
    (now : String) (ee : Entry) (c : Caller) (hc : e.caller = some c) :
    toEntryCore f e stk now ee = toEntryCore f e stk2 now ee := by
  unfold toEntryCore
  dsimp only
  rw [setSourceLocation_caller f e stk _ c hc, setSourceLocation_caller f e stk2 _ c hc]

theorem ToEntry_caller_irrel (f : Formatter) (e : LogrusEntry) (stk stk2 : List Frame)
    (now : String) (c : Caller) (hc : e.caller = some c) :
    ToEntry f e stk now = ToEntry f e stk2 now := by
  unfold ToEntry
  dsimp only
  split
  · split
    · rw [toEntryCore_caller_irrel f e stk stk2 now _ c hc]
    · rfl
  · rw [toEntryCore_caller_irrel f e stk stk2 now _ c hc]

theorem projectsTraceNeEmpty (a b : String) : ("projects/" ++ a ++ "/traces/" ++ b) ≠ "" := by
  intro h
  have h2 : ("projects/" ++ a ++ "/traces/" ++ b).data = [] := by rw [h]
  rw [strDataAppend, strDataAppend, strDataAppend] at h2
  have h3 : "projects/".data = 'p' :: "rojects/".data := rfl
  rw [h3] at h2
  simp at h2

theorem initEntry_span_valid (f : Formatter) (e : LogrusEntry) (sc : SpanContext)
    (hf : mapFind? e.data "span_context" = some (.spanCtx sc)) (hv : sc.isValid = true) :
    (initEntry f e).trace = "projects/" ++ f.projectID ++ "/traces/" ++ hexBytes sc.traceIDBytes ∧
    (initEntry f e).spanID = hexBytes sc.spanIDBytes ∧
    (initEntry f e).traceSampled = sc.sampled := by
  unfold initEntry
  dsimp only
  rw [hf]
  dsimp only
  rw [hv]
  rw [if_pos rfl]
  rw [if_neg (projectsTraceNeEmpty f.projectID (hexBytes sc.traceIDBytes))]
  exact ⟨rfl, rfl, rfl⟩

theorem initEntry_span_fallback (f : Formatter) (e : LogrusEntry)
    (hinv : ∀ sc, mapFind? e.data "span_context" = some (.spanCtx sc) → sc.isValid = false) :
    (initEntry f e).trace = "projects/" ++ f.projectID ++ "/traces/" ++ f.globalTraceID := by
  unfold initEntry
  dsimp only
  cases hf : mapFind? e.data "span_context" with
  | none =>
    dsimp only
    rw [if_pos rfl]
  | some v =>
    cases v
    case spanCtx sc =>
      have hv := hinv sc hf
      simp [hv]
    all_goals (dsimp only; rw [if_pos rfl])

/-! Claim theorems. -/

/-- C5: for every skip-list and every stack frame, if a skip-list entry
occurs as a substring anywhere in the vendor-stripped package-qualified
location of a frame, the stack-origin resolver never returns that frame. -/
theorem claimC5 (f : Formatter) (stk : List Frame) (fr : Frame) (S : String)
    (hS : S ∈ f.stackSkip) (_hin : fr ∈ stk)
    (hsub : strContains (stripVendor fr.pkg) S = true) :
    errorOrigin f stk ≠ some fr := by
  intro h
  have hp := errorOrigin_passes f stk fr h
  have hskip : skipPkg f.stackSkip (stripVendor fr.pkg) = true := by
    unfold skipPkg
    rw [List.any_eq_true]
    exact ⟨S, hS, hsub⟩
  rw [hskip] at hp
  simp at hp

/-- C5 witness: a concrete vendored frame containing the skip entry is
never returned. -/
theorem claimC5_witness :
    "github.com/skipme" ∈ c5Formatter.stackSkip ∧ c5Frame ∈ c5Stack ∧
    strContains (stripVendor c5Frame.pkg) "github.com/skipme" = true ∧
    errorOrigin c5Formatter c5Stack ≠ some c5Frame :=
  ⟨by decide, by decide, by decide,
   claimC5 c5Formatter c5Stack c5Frame "github.com/skipme" (by decide) (by decide) (by decide)⟩

/-- C2 (code bug): promoting pubSubRequest stores the value in the
dedicated slot but deletes the key "pubsubRequest" (lowercase s), so the
value stays in context.data under "pubSubRequest" — against the invariant
that a promoted field is removed from the residual map. -/
theorem claimC2_bug :
    (ToEntry c2Formatter c2Entry [] "").map
        (fun p => (p.1.context.pubSubRequest, mapFind? p.1.context.data "pubSubRequest")) =
      .ok (some [("a", Value.str "b")], some (.mapVal [("a", Value.str "b")])) := rfl

/-- C3 (amended): the concrete ERROR scenario yields the expected message
and service context, and context.data holds foo=bar, but the error key is
retained (stringified), not removed. -/
theorem claimC3_amended :
    (ToEntry c3Formatter c3Entry [] "").map
        (fun p => (p.1.message, p.1.serviceContext, mapFind? p.1.context.data "foo",
                   mapFind? p.1.context.data "error")) =
      .ok ("my log entry\ntest error", some { service := "test", version := "0.1" },
           some (.str "bar"), some (.str "test error")) := rfl

/-- C3 counterexample: the claim says context.data carries no "error" key,
but assembling the concrete scenario leaves "error" in context.data. -/
theorem claimC3_counterexample :
    (ToEntry c3Formatter c3Entry [] "").map (fun p => mapFind? p.1.context.data "error") =
      .ok (some (.str "test error")) ∧ (some (Value.str "test error")) ≠ none := by
  exact ⟨rfl, by simp⟩

/-- C9: under default middleware options a request whose path begins with
/health produces no summary record, and exactly one with an always-true
filter override. -/
theorem claimC9 (r : HTTPIncoming) (h : strHasPre r.urlPath "/health" = true) :
    loggingMiddlewareSummaries (evaluateMiddlewareOptions []) r = [] ∧
    (loggingMiddlewareSummaries (evaluateMiddlewareOptions [WithHTTPFilter (fun _ => true)]) r).length = 1 := by
  have hf : DefaultFilterHTTP r = false := by
    unfold DefaultFilterHTTP
    rw [if_pos]
    exact Or.inr (Or.inr (Or.inr (Or.inr h)))
  constructor
  · simp [loggingMiddlewareSummaries, evaluateMiddlewareOptions, defaultLogOptions, hf]
  · simp [loggingMiddlewareSummaries, evaluateMiddlewareOptions, defaultLogOptions, WithHTTPFilter]

/-- C9 witness at a concrete /health request. -/
theorem claimC9_witness :
    loggingMiddlewareSummaries (evaluateMiddlewareOptions []) c9Request = [] ∧
    (loggingMiddlewareSummaries (evaluateMiddlewareOptions [WithHTTPFilter (fun _ => true)]) c9Request).length = 1 :=
  claimC9 c9Request (by decide)

/-- C10 (code bug): a record whose logID field is not a string makes
ToEntry fail (the source asserts val.(string) unchecked, a runtime panic),
against the claim that the assembler never fails on mistyped fields. -/
theorem claimC10_bug :
    ToEntry defaultFormatter c10Entry [] "" =
      .error "interface conversion: logID value is not a string" := rfl

/-- C8: on a panic the recovery middleware normalises the recovered value
to an error, logs exactly one ERROR record carrying the recovery-time stack
trace, answers 500 with JSON content type and a body containing the
non-empty correlation identifier, and never re-panics (a normal outcome
passes through untouched and the middleware is a total function). -/
theorem claimC8 (v : GoValue) (stk reqId : String) (hstk : stk ≠ "") (hreq : reqId ≠ "") :
    (RecoveryMiddleware stk reqId (.panicked v)).2 =
      [{ level := .error, message := "panic handling request",
         fields := [("error", normalizePanic v), ("stackTrace", stk)] }] ∧
    (RecoveryMiddleware stk reqId (.panicked v)).1.status = 500 ∧
    (RecoveryMiddleware stk reqId (.panicked v)).1.contentType = "application/json" ∧
    strContains (RecoveryMiddleware stk reqId (.panicked v)).1.body reqId = true ∧
    stk ≠ "" ∧ reqId ≠ "" ∧
    (∀ s, normalizePanic (.str s) = s) ∧
    (∀ m, normalizePanic (.err m) = m) ∧
    (∀ r, normalizePanic (.other r) = "unknown error: " ++ r) ∧
    (∀ resp, RecoveryMiddleware stk reqId (.normal resp) = (resp, [])) := by
  refine ⟨rfl, rfl, rfl, ?_, hstk, hreq, fun s => rfl, fun m => rfl, fun r => rfl, fun resp => rfl⟩
  show strContains (marshalStatus reqId) reqId = true
  unfold marshalStatus
  exact strContains_mid _ reqId _

/-- C1 (amended): for a record assembled at severity ERROR, CRITICAL or
ALERT with a non-empty message, the ReportedErrorEvent type tag is present
exactly when the configured service name is non-empty and either the
stack-trace field is non-empty or a source location is present; the
configured version plays no role in the gate. -/
theorem claimC1_amended (f : Formatter) (e : LogrusEntry) (stk : List Frame) (now : String)
    (ee : Entry) (eo : Option String)
    (hok : ToEntry f e stk now = .ok (ee, eo))
    (hsev : levelsToSeverity e.level = "ERROR" ∨ levelsToSeverity e.level = "CRITICAL" ∨
      levelsToSeverity e.level = "ALERT")
    (hmsg : e.message ≠ "") :
    (ee.type = reportedErrorEventType ↔
      f.service ≠ "" ∧ (ee.stackTrace ≠ "" ∨ ee.sourceLocation.isSome)) := by
  obtain ⟨ee0, hee, -, h0, -, -, -, -, -, -, -⟩ := ToEntry_ok_shape f e stk now ee eo hok
  subst hee
  unfold toEntryCore
  dsimp only
  simp only [promotePubSub_type, promoteGRPCStatus_type, promoteGRPCReq_type,
    promoteHTTPDetails_type, promoteHTTPReq_type, promoteUser_type,
    promotePubSub_stackTrace, promoteGRPCStatus_stackTrace, promoteGRPCReq_stackTrace,
    promoteHTTPDetails_stackTrace, promoteHTTPReq_stackTrace, promoteUser_stackTrace,
    promotePubSub_sourceLocation, promoteGRPCStatus_sourceLocation, promoteGRPCReq_sourceLocation,
    promoteHTTPDetails_sourceLocation, promoteHTTPReq_sourceLocation, promoteUser_sourceLocation]
  rw [setMessageParts_pos e hmsg]
  unfold severityBlock
  rw [if_pos hsev]
  have hchar := errorBranch_char f e [e.message] (setSourceLocation f e stk (setTimestamp f e now ee0))
    (by simp [h0]) (by simp) (by simp)
  exact ⟨fun h => ⟨hchar.1.mp h, Or.inr hchar.2⟩, fun h => hchar.1.mpr h.1⟩

/-- C1 counterexample: at severity ERROR with a non-empty message, an empty
configured version and a non-empty service, the tag is still set — the
claim requires the version to be non-empty for the tag. -/
theorem claimC1_counterexample :
    c1Formatter.version = "" ∧
    levelsToSeverity c1Entry.level = "ERROR" ∧
    c1Entry.message ≠ "" ∧
    (ToEntry c1Formatter c1Entry [] "").map (fun p => p.1.type) = .ok reportedErrorEventType := by
  refine ⟨rfl, rfl, by decide, ?_⟩
  rfl

/-- C1 witness: the amended gate at the concrete empty-version input. -/
theorem claimC1_witness :
    ToEntry c1Formatter c1Entry [] "" = .ok (c1Assembled, none) ∧
    (c1Assembled.type = reportedErrorEventType ↔
      c1Formatter.service ≠ "" ∧ (c1Assembled.stackTrace ≠ "" ∨ c1Assembled.sourceLocation.isSome)) :=
  ⟨rfl, claimC1_amended c1Formatter c1Entry [] "" c1Assembled none rfl (Or.inl rfl) (by decide)⟩

/-- C4: below ERROR severity (DEBUG, INFO, WARNING) the assembled entry
carries no service descriptor and no report location, even when the record
has an attached error value. -/
theorem claimC4 (f : Formatter) (e : LogrusEntry) (stk : List Frame) (now : String)
    (ee : Entry) (eo : Option String)
    (hok : ToEntry f e stk now = .ok (ee, eo))
    (hsev : levelsToSeverity e.level = "DEBUG" ∨ levelsToSeverity e.level = "INFO" ∨
      levelsToSeverity e.level = "WARNING") :
    ee.serviceContext = none ∧ ee.context.reportLocation = none := by
  obtain ⟨ee0, hee, -, -, -, hsc, hrl, -, -, -, -⟩ := ToEntry_ok_shape f e stk now ee eo hok
  subst hee
  have hne : ¬(levelsToSeverity e.level = "ERROR" ∨ levelsToSeverity e.level = "CRITICAL" ∨
      levelsToSeverity e.level = "ALERT") := by
    rcases hsev with h | h | h <;> rw [h] <;> decide
  unfold toEntryCore
  dsimp only
  rw [severityBlock_low f e _ _ _ hne]
  dsimp only
  constructor
  · simp [hsc]
  · simp [hrl]

/-- C4 witness: an INFO record with an attached error value. -/
theorem claimC4_witness :
    c4Assembled.serviceContext = none ∧ c4Assembled.context.reportLocation = none :=
  claimC4 c4Formatter c4Entry [] "" c4Assembled none rfl (Or.inr (Or.inl rfl))

/-- C6 (amended): a framework-supplied caller is used as-is and makes the
result independent of the ambient stack (the resolver is not consulted);
when no caller is supplied and the resolver exhausts the stack it returns
the empty sentinel without failing, and the assembled entry carries the
sentinel renderings in its source location instead of omitting it. -/
theorem claimC6_amended (f : Formatter) (e : LogrusEntry) (stk : List Frame) (now : String)
    (ee : Entry) (eo : Option String)
    (hok : ToEntry f e stk now = .ok (ee, eo)) :
    (∀ c, e.caller = some c →
       ee.sourceLocation = some { filePath := c.file, lineNumber := c.line, functionName := c.function } ∧
       ∀ stk2, ToEntry f e stk2 now = .ok (ee, eo)) ∧
    (e.caller = none → errorOrigin f stk = none →
       ee.sourceLocation = some { filePath := noFuncFile, lineNumber := 0, functionName := noFuncFunction }) := by
  obtain ⟨ee0, hee, -, -, -, -, -, -, -, -, -⟩ := ToEntry_ok_shape f e stk now ee eo hok
  constructor
  · intro c hc
    constructor
    · rw [hee, toEntryCore_sourceLocation, setSourceLocation_caller f e stk _ c hc]
    · intro stk2
      rw [ToEntry_caller_irrel f e stk2 stk now c hc]
      exact hok
  · intro hc ho
    rw [hee, toEntryCore_sourceLocation, setSourceLocation_exhaust f e stk _ hc ho]

/-- C6 counterexample: over an exhausted stack the source location is not
omitted; it carries the sentinel NOFUNC renderings. -/
theorem claimC6_counterexample :
    (ToEntry c6Formatter c6Entry c6Stack "").map (fun p => p.1.sourceLocation) =
      .ok (some { filePath := noFuncFile, lineNumber := 0, functionName := noFuncFunction }) ∧
    (some { filePath := noFuncFile, lineNumber := 0, functionName := noFuncFunction } : Option SourceLocation) ≠ none :=
  ⟨rfl, by simp⟩

/-- C6 witness: the exhaustion conjunct at the concrete skip-all input. -/
theorem claimC6_witness :
    c6Assembled.sourceLocation =
      some { filePath := noFuncFile, lineNumber := 0, functionName := noFuncFunction } :=
  (claimC6_amended c6Formatter c6Entry c6Stack "" c6Assembled none rfl).2 rfl rfl

/-- C7: a valid span context yields trace projects/{project}/traces/{trace
id in lowercase hex}, the 16-hex-digit span id and the copied sampled flag;
without a valid span context the trace falls back to the global id fixed at
formatter construction (configured, or the fresh UUID when unset). -/
theorem claimC7 (f : Formatter) (e : LogrusEntry) (stk : List Frame) (now : String)
    (ee : Entry) (eo : Option String)
    (hok : ToEntry f e stk now = .ok (ee, eo)) :
    (∀ sc, mapFind? e.data "span_context" = some (.spanCtx sc) → sc.isValid = true →
        ee.trace = "projects/" ++ f.projectID ++ "/traces/" ++ hexBytes sc.traceIDBytes ∧
        ee.spanID = hexBytes sc.spanIDBytes ∧ ee.traceSampled = sc.sampled) ∧
    ((∀ sc, mapFind? e.data "span_context" = some (.spanCtx sc) → sc.isValid = false) →
        ee.trace = "projects/" ++ f.projectID ++ "/traces/" ++ f.globalTraceID) ∧
    hexBytes [0, 0, 0, 0, 0, 0, 0, 1] = "0000000000000001" ∧
    (∀ opts u, ((applyFmtOptions opts).globalTraceID = "" → (NewFormatter opts u).globalTraceID = u) ∧
      ((applyFmtOptions opts).globalTraceID ≠ "" →
        (NewFormatter opts u).globalTraceID = (applyFmtOptions opts).globalTraceID)) := by
  obtain ⟨ee0, hee, -, -, -, -, -, -, htr, hsp, hsa⟩ := ToEntry_ok_shape f e stk now ee eo hok
  refine ⟨?_, ?_, rfl, ?_⟩
  · intro sc hf hv
    obtain ⟨h1, h2, h3⟩ := initEntry_span_valid f e sc hf hv
    refine ⟨?_, ?_, ?_⟩
    · rw [hee, toEntryCore_trace, htr, h1]
    · rw [hee, toEntryCore_spanID, hsp, h2]
    · rw [hee, toEntryCore_traceSampled, hsa, h3]
  · intro hinv
    rw [hee, toEntryCore_trace, htr, initEntry_span_fallback f e hinv]
  · intro opts u
    constructor
    · intro h
      unfold NewFormatter
      dsimp only
      rw [if_pos h]
      rfl
    · intro h
      unfold NewFormatter
      dsimp only
      rw [if_neg h]

/-- C7 witness: the concrete span context of the tests. -/
theorem claimC7_witness :
    c7Assembled.trace = "projects/" ++ c7Formatter.projectID ++ "/traces/" ++ hexBytes c7SpanCtx.traceIDBytes ∧
    c7Assembled.spanID = hexBytes c7SpanCtx.spanIDBytes ∧
    c7Assembled.traceSampled = c7SpanCtx.sampled :=
  (claimC7 c7Formatter c7Entry [] "" c7Assembled none rfl).1 c7SpanCtx rfl rfl

/-- C8 witness: a concrete string panic. -/
theorem claimC8_witness :
    (RecoveryMiddleware "stack bytes" "id123" (.panicked (.str "boom"))).2 =
      [{ level := .error, message := "panic handling request",
         fields := [("error", "boom"), ("stackTrace", "stack bytes")] }] ∧
    (RecoveryMiddleware "stack bytes" "id123" (.panicked (.str "boom"))).1.status = 500 ∧
    (RecoveryMiddleware "stack bytes" "id123" (.panicked (.str "boom"))).1.contentType = "application/json" ∧
    strContains (RecoveryMiddleware "stack bytes" "id123" (.panicked (.str "boom"))).1.body "id123" = true := by
  have h := claimC8 (.str "boom") "stack bytes" "id123" (by decide) (by decide)
  exact ⟨h.1, h.2.1, h.2.2.1, h.2.2.2.1⟩

end Logadapter
